import Mathlib

/-!
Verification development for the ECG_Viewer repository.

The definitions below are shallow embeddings of the TypeScript sources:
JavaScript numbers are modelled as exact rationals, byte buffers as
lists of naturals (each entry below 256 where it matters), and the impure
inputs of a function (wall-clock time, Math.random, the Math.sin and Math.PI
float results, the Bluetooth environment) are passed in explicitly as
parameters.  Definitions come first, then the theorems.
-/

/- ## Payload decoder (src/services/BluetoothService.ts, parseECGData) -/

/-- Model of `buf.readInt16LE(0)`: little-endian signed 16-bit integer from
two bytes. -/
def readInt16LE (b0 b1 : ℕ) : ℤ :=
  let u : ℕ := b0 + 256 * b1
  if u < 32768 then (u : ℤ) else (u : ℤ) - 65536

/-- Model of `buf.readFloatLE(0)`: the exact rational value of the
little-endian IEEE-754 binary32 float stored in bytes `b0 b1 b2 b3` (LSB
first).  Returns `none` when the exponent field is all ones (NaN or an
infinity), the only case where the value of the float is not a rational
number. -/
def float32LE (b0 b1 b2 b3 : ℕ) : Option ℚ :=
  let sign : ℚ := if 128 ≤ b3 then -1 else 1
  let expo : ℕ := (b3 % 128) * 2 + b2 / 128
  let mant : ℕ := (b2 % 128) * 65536 + b1 * 256 + b0
  if expo = 255 then none
  else if expo = 0 then some (sign * (mant : ℚ) / 2 ^ 149)
  else some (sign * (2 ^ expo * (2 ^ 23 + (mant : ℚ))) / 2 ^ 150)

/-- The decoder `parseECGData` (BluetoothService.ts lines 312-337): dispatch
on the payload length.  With `len >= 4`: float32 LE; `len >= 2`: int16 LE
divided by 1000; `len >= 1`: uint8 divided by 10; `len == 0`: the code logs
a warning and returns 0. -/
def parseECGData (bytes : List ℕ) : Option ℚ :=
  if 4 ≤ bytes.length then
    float32LE (bytes.getD 0 0) (bytes.getD 1 0) (bytes.getD 2 0) (bytes.getD 3 0)
  else if 2 ≤ bytes.length then
    some ((readInt16LE (bytes.getD 0 0) (bytes.getD 1 0) : ℚ) / 1000)
  else if 1 ≤ bytes.length then
    some ((bytes.getD 0 0 : ℚ) / 10)
  else
    some 0

/-- Modelled from the spec (section 4.1): the decode rule as the spec states
it, in particular `len == 0` *fails* (here: `none`) instead of producing a
value.  Used to compare the `parseECGData` of the code against the spec. -/
def decodeSpec (bytes : List ℕ) : Option ℚ :=
  if 4 ≤ bytes.length then
    float32LE (bytes.getD 0 0) (bytes.getD 1 0) (bytes.getD 2 0) (bytes.getD 3 0)
  else if 2 ≤ bytes.length then
    some ((readInt16LE (bytes.getD 0 0) (bytes.getD 1 0) : ℚ) / 1000)
  else if 1 ≤ bytes.length then
    some ((bytes.getD 0 0 : ℚ) / 10)
  else
    none

/- ## Heart-rate estimator (src/unnamed/part_000, calculateHeartRate) -/

/-- The estimator step `calculateHeartRate` (part_000 lines 36-51): push the
new value, shift the oldest when the buffer exceeds 50 entries, count values
above the 1.5 mV threshold, clamp `peaks * 6` into `[50, 180]`.  Returns the
updated buffer together with the BPM estimate (the source mutates
`heartRateCalculationBuffer` in place; here the buffer is threaded
explicitly). -/
def calculateHeartRate (buffer : List ℚ) (ecgValue : ℚ) : List ℚ × ℕ :=
  let buf : List ℚ := buffer ++ [ecgValue]
  let buf : List ℚ := if 50 < buf.length then buf.tail else buf
  let peaks : ℕ := (buf.filter (fun v => (3 / 2 : ℚ) < v)).length
  let estimatedBPM : ℕ := min (max (peaks * 6) 50) 180
  (buf, estimatedBPM)

/-- One fold step: feed a sample, record the emitted BPM estimate. -/
def hrStepFold (acc : List ℚ × List ℕ) (v : ℚ) : List ℚ × List ℕ :=
  let r := calculateHeartRate acc.1 v
  (r.1, acc.2 ++ [r.2])

/-- The sequence of BPM estimates emitted when the samples are fed one at a
time to `calculateHeartRate`, starting from the empty buffer (as
`startMonitoring` resets `heartRateCalculationBuffer` to the empty array). -/
def hrEstimates (samples : List ℚ) : List ℕ :=
  (samples.foldl hrStepFold ([], [])).2

/-- The estimator output for a single sample fed into the empty buffer. -/
def hrSingle (v : ℚ) : ℕ := (calculateHeartRate [] v).2

/- ## Session aggregator (src/unnamed/part_000, saveSession) -/

/-- Model of `Math.round`: round to the nearest integer, ties toward positive
infinity (this is also the tie rule of `Number.prototype.toFixed`). -/
def jsRound (q : ℚ) : ℤ := ⌊q + 1 / 2⌋

/-- Model of `parseFloat(x.toFixed(2))`: round to 2 decimal places. -/
def round2 (q : ℚ) : ℚ := (jsRound (q * 100) : ℚ) / 100

/-- The session status literals: normal, elevated, low. -/
inductive SessionStatus where
  | normal
  | elevated
  | low
deriving DecidableEq, Repr

/-- Status derivation (part_000 lines 217-220): above 85 elevated, below 65
low, else normal. -/
def sessionStatusOf (avgHeartRate : ℤ) : SessionStatus :=
  if 85 < avgHeartRate then SessionStatus.elevated
  else if avgHeartRate < 65 then SessionStatus.low
  else SessionStatus.normal

/-- Model of `Math.min(...values)` over a non-empty array (the empty case is
never reached: `saveSessionCore` checks emptiness first). -/
def listMin : List ℚ → ℚ
  | [] => 0
  | x :: xs => xs.foldl min x

/-- Model of `Math.max(...values)` over a non-empty array. -/
def listMax : List ℚ → ℚ
  | [] => 0
  | x :: xs => xs.foldl max x

/-- Duration formatting (part_000 lines 232-236): minutes and seconds when at
least one whole minute, else seconds only. -/
def formatDuration (durationSeconds : ℕ) : String :=
  let minutes : ℕ := durationSeconds / 60
  let seconds : ℕ := durationSeconds % 60
  if 0 < minutes then toString minutes ++ "m " ++ toString seconds ++ "s"
  else toString seconds ++ "s"

/-- The session object assembled by `saveSession` (part_000 lines 239-251),
restricted to its data fields (the wall-clock date, time and notes strings
are injected impurities irrelevant to the claims). -/
structure SessionRecord where
  heartRate : ℤ
  avgECG : ℚ
  minECG : ℚ
  maxECG : ℚ
  status : SessionStatus
  durationSeconds : ℕ
  duration : String
  ecgData : List ℚ
deriving DecidableEq, Repr

/-- The metric computation of `saveSession` (part_000 lines 199-251): given
the accumulated heart-rate and mV buffers and the elapsed whole seconds,
either bail out (`none`) when a buffer is empty, or build the session
record. -/
def saveSessionCore (heartRates : List ℕ) (ecgValues : List ℚ)
    (durationSeconds : ℕ) : Option SessionRecord :=
  if heartRates.length = 0 ∨ ecgValues.length = 0 then none
  else
    let avgHeartRate : ℤ := jsRound ((heartRates.sum : ℚ) / (heartRates.length : ℚ))
    let avgECGValue : ℚ := round2 (ecgValues.sum / (ecgValues.length : ℚ))
    let minECGValue : ℚ := listMin ecgValues
    let maxECGValue : ℚ := listMax ecgValues
    some { heartRate := avgHeartRate, avgECG := avgECGValue, minECG := minECGValue,
           maxECG := maxECGValue, status := sessionStatusOf avgHeartRate,
           durationSeconds := durationSeconds,
           duration := formatDuration durationSeconds, ecgData := ecgValues }

/- ## Connection state machine (src/services/BluetoothService.ts) -/

/-- The `ConnectionStatus` enum (BluetoothService.ts lines 30-36). -/
inductive ConnectionStatus where
  | DISCONNECTED
  | SCANNING
  | CONNECTING
  | CONNECTED
  | ERROR
deriving DecidableEq, Repr

/-- A discovered peripheral (`device.id` and `device.name`). -/
structure Peripheral where
  id : String
  name : String
deriving DecidableEq, Repr

/-- The module-level mutable state of BluetoothService.ts:
`connectedDevice`, `subscription` (notification subscription or poll-timer
wrapper), `scanTimeout` (the held timer handle), `statusCallback`, and
`currentStatus`.  The `scanCalls` field instruments the number of
`startDeviceScan` invocations, so that "discovery was not re-invoked" is
expressible. -/
structure BTState where
  connectedDevice : Option Peripheral
  subscription : Bool
  scanTimeout : Bool
  statusCallback : Bool
  currentStatus : ConnectionStatus
  scanCalls : ℕ
deriving DecidableEq, Repr

/-- The module state at load time: everything null, status `DISCONNECTED`. -/
def initialBTState : BTState :=
  { connectedDevice := none, subscription := false, scanTimeout := false,
    statusCallback := false, currentStatus := ConnectionStatus.DISCONNECTED,
    scanCalls := 0 }

/-- How one discovery attempt resolves: a scan-callback error, the 30 s
timeout with no matching device, or a matching device (with the subsequent
`device.connect()` handshake succeeding or not). -/
inductive ScanOutcome where
  | scanError
  | timeout
  | found (d : Peripheral) (connectOk : Bool)
deriving DecidableEq, Repr

/-- The environment one `connectToECGDevice` call runs in: whether the BLE
manager exists (not Expo Go), whether permissions are granted, whether the
radio reports `PoweredOn`, how the scan resolves, and whether the target
characteristic is found by `monitorECGData`. -/
structure BTEnv where
  bleAvailable : Bool
  permissionsGranted : Bool
  poweredOn : Bool
  scanOutcome : ScanOutcome
  charFound : Bool
deriving DecidableEq, Repr

/-- The connector `connectToECGDevice` (BluetoothService.ts lines 96-238),
sequentially: no BLE manager, then `ERROR` and `false`; install the status
callback; already holding a device, then `CONNECTED` and `true` (no scan
started); permissions denied, then `ERROR` and `false`; radio not powered
on, then `ERROR` and `false`; otherwise `SCANNING`, arm the 30 s timeout,
start the scan, and resolve per the scan outcome.  Note the `clearTimeout`
calls on the success and error paths cancel the pending timer but never null
the `scanTimeout` variable; only `disconnectFromECGDevice` does. -/
def connectToECGDevice (env : BTEnv) (s : BTState) : Bool × BTState :=
  if !env.bleAvailable then
    (false, { s with currentStatus := ConnectionStatus.ERROR })
  else
    let s := { s with statusCallback := true }
    if s.connectedDevice.isSome then
      (true, { s with currentStatus := ConnectionStatus.CONNECTED })
    else if !env.permissionsGranted then
      (false, { s with currentStatus := ConnectionStatus.ERROR })
    else if !env.poweredOn then
      (false, { s with currentStatus := ConnectionStatus.ERROR })
    else
      let s := { s with currentStatus := ConnectionStatus.SCANNING,
                        scanTimeout := true, scanCalls := s.scanCalls + 1 }
      match env.scanOutcome with
      | ScanOutcome.scanError =>
          (false, { s with currentStatus := ConnectionStatus.ERROR })
      | ScanOutcome.timeout =>
          (false, { s with currentStatus := ConnectionStatus.ERROR })
      | ScanOutcome.found d ok =>
          let s := { s with currentStatus := ConnectionStatus.CONNECTING }
          if ok then
            (true, { s with connectedDevice := some d,
                            subscription := env.charFound,
                            currentStatus := ConnectionStatus.CONNECTED })
          else
            (false, { s with connectedDevice := none,
                             currentStatus := ConnectionStatus.ERROR })

/-- The teardown `disconnectFromECGDevice` (BluetoothService.ts lines
340-383): remove the subscription, clear and release the scan timer, stop
any scan, cancel the connection and release the handle (each step wrapped in
try/catch, so no error escapes), set `DISCONNECTED`, and clear the status
callback. -/
def disconnectFromECGDevice (s : BTState) : BTState :=
  { s with subscription := false, scanTimeout := false, connectedDevice := none,
           currentStatus := ConnectionStatus.DISCONNECTED,
           statusCallback := false }

/-- A concrete reachable `ERROR` state: connect from the initial state with
permissions denied. -/
def errorBTState : BTState :=
  (connectToECGDevice
    { bleAvailable := true, permissionsGranted := false, poweredOn := true,
      scanOutcome := ScanOutcome.timeout, charFound := false }
    initialBTState).2

/-- An environment where everything succeeds. -/
def happyBTEnv : BTEnv :=
  { bleAvailable := true, permissionsGranted := true, poweredOn := true,
    scanOutcome := ScanOutcome.found { id := "aa:bb", name := "ESP32_ECG" } true,
    charFound := true }

/-- A concrete connected state, for the C7 witness. -/
def connectedBTState : BTState :=
  { connectedDevice := some { id := "aa:bb", name := "ESP32_ECG" },
    subscription := true, scanTimeout := true, statusCallback := true,
    currentStatus := ConnectionStatus.CONNECTED, scanCalls := 1 }

/- ## Synthetic waveform generator (src/services/FakeData.ts) -/

/-- Model of `parseFloat(value.toFixed(3))`: round to 3 decimal places. -/
def round3 (q : ℚ) : ℚ := (jsRound (q * 1000) : ℚ) / 1000

/-- The noise term of one sample (FakeData.ts line 25):
`Math.random() * 0.05 - 0.025`, with the `Math.random()` stream injected as
`rnd` indexed by the running sample index. -/
def noiseTerm (rnd : ℕ → ℚ) (point : ℕ) : ℚ :=
  rnd point * (5 / 100) - 25 / 1000

/-- The P-wave term (FakeData.ts lines 28-31): half-sine of amplitude 0.15
across cycle samples 10-20.  Here `sine` stands for the float function
`Math.sin` and `pi` for the float constant `Math.PI`, both injected. -/
def pWaveTerm (pi : ℚ) (sine : ℚ → ℚ) (cycle : ℚ) : ℚ :=
  if 10 ≤ cycle ∧ cycle ≤ 20 then
    (15 / 100) * sine (((cycle - 10) / 10) * pi)
  else 0

/-- The QRS term (FakeData.ts lines 35-52): Q negative half-sine amp 0.1 on
the first 20 percent of the 30-45 window, R positive half-sine amp 1.2 on
the next 40 percent, S negative half-sine amp 0.2 on the rest. -/
def qrsTerm (pi : ℚ) (sine : ℚ → ℚ) (cycle : ℚ) : ℚ :=
  if 30 ≤ cycle ∧ cycle ≤ 45 then
    let qrsPosition : ℚ := (cycle - 30) / 15
    if qrsPosition < 1 / 5 then
      -((1 / 10) * sine (qrsPosition * 5 * pi))
    else if 1 / 5 ≤ qrsPosition ∧ qrsPosition < 3 / 5 then
      (12 / 10) * sine (((qrsPosition - 1 / 5) / (2 / 5)) * pi)
    else
      -((2 / 10) * sine (((qrsPosition - 3 / 5) / (2 / 5)) * pi))
  else 0

/-- The T-wave term (FakeData.ts lines 55-58): half-sine of amplitude 0.25
across cycle samples 60-80. -/
def tWaveTerm (pi : ℚ) (sine : ℚ → ℚ) (cycle : ℚ) : ℚ :=
  if 60 ≤ cycle ∧ cycle ≤ 80 then
    (25 / 100) * sine (((cycle - 60) / 20) * pi)
  else 0

/-- The baseline-wander term (FakeData.ts line 61): amplitude 0.03, driven by
the unbounded running index, not the cycle-relative position. -/
def wanderTerm (sine : ℚ → ℚ) (point : ℕ) : ℚ :=
  (3 / 100) * sine ((point : ℚ) * (1 / 100))

/-- The generator `generateRealisticECGValue` (FakeData.ts lines 18-65):
cycle position is `point % 100`; the value is the sum of baseline noise,
P wave, QRS complex, T wave and baseline wander (each `value +=` block is
one term above), rounded to 3 decimals.  The impure float ingredients —
`Math.PI`, `Math.sin`, and the `Math.random()` stream — are injected as
`pi`, `sine` and `rnd`. -/
def generateRealisticECGValue (pi : ℚ) (sine : ℚ → ℚ) (rnd : ℕ → ℚ)
    (point : ℕ) : ℚ :=
  let cycle : ℚ := ((point % 100 : ℕ) : ℚ)
  round3 (0 + noiseTerm rnd point + pWaveTerm pi sine cycle
    + qrsTerm pi sine cycle + tWaveTerm pi sine cycle + wanderTerm sine point)

/-- The batch generator `generateECGBatch` (FakeData.ts lines 104-110): the
values at running indices 0 through `count - 1`. -/
def generateECGBatch (pi : ℚ) (sine : ℚ → ℚ) (rnd : ℕ → ℚ)
    (count : ℕ) : List ℚ :=
  (List.range count).map (generateRealisticECGValue pi sine rnd)

/-- The deterministic components of one sample: everything except the noise
term — a pure function of the running index alone. -/
def deterministicComponent (pi : ℚ) (sine : ℚ → ℚ) (point : ℕ) : ℚ :=
  let cycle : ℚ := ((point % 100 : ℕ) : ℚ)
  pWaveTerm pi sine cycle + qrsTerm pi sine cycle + tWaveTerm pi sine cycle
    + wanderTerm sine point

/- ## Export service (src/unnamed/part_008) -/

/-- The `ExportResult` interface of part_008: `success` plus the optional
`data`, `fileName` and `error` fields. -/
structure ExportResult where
  success : Bool
  data : Option String
  fileName : Option String
  error : Option String
deriving DecidableEq, Repr

/-- The `ECGSession` interface (StorageService.ts lines 12-26), with JS
numbers as exact rationals and integers. -/
structure ECGSession where
  id : String
  date : String
  time : String
  heartRate : ℤ
  avgECG : ℚ
  minECG : ℚ
  maxECG : ℚ
  status : SessionStatus
  duration : String
  durationSeconds : ℕ
  ecgData : List ℚ
  timestamp : ℕ
  notes : Option String
deriving DecidableEq, Repr

/-- The `AppStatistics` interface (StorageService.ts lines 36-44). -/
structure AppStatistics where
  totalSessions : ℕ
  avgHeartRate : ℤ
  avgDuration : String
  lastSessionTimestamp : ℕ
  normalReadings : ℕ
  elevatedReadings : ℕ
  lowReadings : ℕ
deriving DecidableEq, Repr

/-- The status literal as it appears in the exported documents. -/
def statusText : SessionStatus → String
  | SessionStatus.normal => "normal"
  | SessionStatus.elevated => "elevated"
  | SessionStatus.low => "low"

/-- Notes sanitization (part_008 line 52): global-replace commas by
semicolons, then newlines by spaces, on the notes string (empty when
absent).  The two sequential replaces fuse into one character map because
neither replacement character is itself replaced. -/
def sanitizeNotes (notes : Option String) : String :=
  String.mk ((notes.getD "").toList.map (fun ch =>
    if ch = ',' then ';' else if ch = '\n' then ' ' else ch))

/-- Model of `x.toFixed(2)` as a string, for the exact rationals of the
model. -/
def toFixed2 (q : ℚ) : String :=
  let n : ℤ := jsRound (q * 100)
  let sgn : String := if n < 0 then "-" else ""
  let m : ℕ := n.natAbs
  sgn ++ toString (m / 100) ++ "." ++
    (if m % 100 < 10 then "0" else "") ++ toString (m % 100)

/-- The CSV header line (part_008 line 48). -/
def csvHeader : String :=
  "ID,Date,Time,Heart Rate (bpm),Avg ECG (mV),Min ECG (mV),Max ECG (mV),Status,Duration,Notes\n"

/-- One CSV row (part_008 lines 51-64). -/
def csvRow (session : ECGSession) : String :=
  String.intercalate (",")
    [session.id, session.date, session.time, toString session.heartRate,
      toFixed2 session.avgECG, toFixed2 session.minECG, toFixed2 session.maxECG,
      statusText session.status, session.duration, sanitizeNotes session.notes]

/-- The CSV export `exportToCSV` (part_008 lines 37-85).  The `today`
parameter injects the timestamp derived from `new Date().toISOString()` used
in the file name. -/
def exportToCSV (today : String) (sessions : List ECGSession) : ExportResult :=
  if sessions.length = 0 then
    { success := false, data := none, fileName := none,
      error := some ("No sessions to export") }
  else
    let csvRows : String := String.intercalate ("\n") (sessions.map csvRow)
    let csvContent : String := csvHeader ++ csvRows
    { success := true, data := some csvContent,
      fileName := some ("ECG_Export_" ++ today ++ ".csv"), error := none }

/-- A JSON document tree, for modelling `JSON.stringify`. -/
inductive Json where
  | null
  | bool (b : Bool)
  | num (q : ℚ)
  | str (s : String)
  | arr (xs : List Json)
  | obj (fields : List (String × Json))
deriving Repr

mutual

/-- A rendering of a JSON tree to a string (mutually with the list and field
renderers below).  This models `JSON.stringify` up to insignificant
whitespace and JS number-to-string formatting (the claims do not depend on
the serialized text, only on whether a document is produced at all). -/
def Json.render : Json → String
  | Json.null => "null"
  | Json.bool b => if b then "true" else "false"
  | Json.num q => toString q.num ++
      (if q.den = 1 then "" else "/" ++ toString q.den)
  | Json.str s => "\x22" ++ s ++ "\x22"
  | Json.arr xs => "[" ++ Json.renderList xs ++ "]"
  | Json.obj fields => "\x7b" ++ Json.renderFields fields ++ "\x7d"

/-- Comma-joined rendering of an array body. -/
def Json.renderList : List Json → String
  | [] => ""
  | [x] => Json.render x
  | x :: y :: xs => Json.render x ++ "," ++ Json.renderList (y :: xs)

/-- Comma-joined rendering of an object body. -/
def Json.renderFields : List (String × Json) → String
  | [] => ""
  | [f] => "\x22" ++ f.1 ++ "\x22:" ++ Json.render f.2
  | f :: g :: fs =>
      "\x22" ++ f.1 ++ "\x22:" ++ Json.render f.2 ++ "," ++
        Json.renderFields (g :: fs)

end

/-- The JSON tree of one `ECGSession`, field for field. -/
def jsonOfSession (s : ECGSession) : Json :=
  Json.obj
    [("id", Json.str s.id), ("date", Json.str s.date), ("time", Json.str s.time),
      ("heartRate", Json.num (s.heartRate : ℚ)), ("avgECG", Json.num s.avgECG),
      ("minECG", Json.num s.minECG), ("maxECG", Json.num s.maxECG),
      ("status", Json.str (statusText s.status)),
      ("duration", Json.str s.duration),
      ("durationSeconds", Json.num (s.durationSeconds : ℚ)),
      ("ecgData", Json.arr (s.ecgData.map Json.num)),
      ("timestamp", Json.num (s.timestamp : ℚ)),
      ("notes", match s.notes with
        | some n => Json.str n
        | none => Json.null)]

/-- The JSON tree of `AppStatistics`. -/
def jsonOfStatistics (st : AppStatistics) : Json :=
  Json.obj
    [("totalSessions", Json.num (st.totalSessions : ℚ)),
      ("avgHeartRate", Json.num (st.avgHeartRate : ℚ)),
      ("avgDuration", Json.str st.avgDuration),
      ("lastSessionTimestamp", Json.num (st.lastSessionTimestamp : ℚ)),
      ("normalReadings", Json.num (st.normalReadings : ℚ)),
      ("elevatedReadings", Json.num (st.elevatedReadings : ℚ)),
      ("lowReadings", Json.num (st.lowReadings : ℚ))]

/-- The JSON export `exportToJSON` (part_008 lines 93-131): the export object
is version, exportDate, totalSessions, sessions, and statistics-or-null.
The `exportDate` and `today` parameters inject the two `new Date()`
readings. -/
def exportToJSON (exportDate today : String) (sessions : List ECGSession)
    (statistics : Option AppStatistics) : ExportResult :=
  if sessions.length = 0 then
    { success := false, data := none, fileName := none,
      error := some ("No sessions to export") }
  else
    let exportData : Json := Json.obj
      [("version", Json.str ("1.0.0")), ("exportDate", Json.str exportDate),
        ("totalSessions", Json.num (sessions.length : ℚ)),
        ("sessions", Json.arr (sessions.map jsonOfSession)),
        ("statistics", match statistics with
          | some st => jsonOfStatistics st
          | none => Json.null)]
    { success := true, data := some exportData.render,
      fileName := some ("ECG_Export_" ++ today ++ ".json"), error := none }

/-- A concrete session used by the C10 witness. -/
def witnessSession : ECGSession :=
  { id := "1", date := "2026-10-11", time := "10:00 AM", heartRate := 72,
    avgECG := 133 / 100, minECG := 9 / 10, maxECG := 2,
    status := SessionStatus.normal, duration := "3s", durationSeconds := 3,
    ecgData := [9 / 10, 11 / 10, 2], timestamp := 0,
    notes := some ("test, note") }

/- ## Theorems -/

/-- C1: for every non-empty payload, decode returns: with at least 4 bytes
the little-endian IEEE-754 float from the first 4 bytes (as mV directly);
else with at least 2 bytes the little-endian signed 16-bit integer divided
by 1000; else the unsigned 8-bit value of the single byte divided by 10 —
that is, `parseECGData` of the code agrees with the decode rule of the spec
on every non-empty payload. -/
theorem parseECGData_matches_spec (bytes : List ℕ) (h : bytes ≠ []) :
    parseECGData bytes = decodeSpec bytes := by
  unfold parseECGData decodeSpec
  split_ifs with h4 h2 h1
  · rfl
  · rfl
  · rfl
  · cases bytes with
    | nil => exact absurd rfl h
    | cons a l => simp at h1

/-- Witness for C1 at the 4-byte payload `[0x00, 0x00, 0x80, 0x3F]`,
which decodes to the IEEE-754 float 1.0. -/
theorem parseECGData_matches_spec_witness :
    ([0, 0, 128, 63] : List ℕ) ≠ [] ∧
      parseECGData [0, 0, 128, 63] = decodeSpec [0, 0, 128, 63] ∧
      parseECGData [0, 0, 128, 63] = some 1 :=
  ⟨by decide, parseECGData_matches_spec [0, 0, 128, 63] (by decide), by
    norm_num [parseECGData, float32LE]⟩

/-- C2 counterexample: on the zero-length payload the decoder does *not*
fail — it produces a value. -/
theorem parseECGData_empty_not_failure : parseECGData [] ≠ none := by
  decide

/-- C2 (amended): for the zero-length payload, decode logs a warning and
returns the value 0 mV — the sample is passed on to the caller rather than
dropped — and the process does not crash (the function returns normally). -/
theorem parseECGData_empty_returns_zero : parseECGData [] = some 0 := by
  decide

/-- Every single estimator step is clamped into the 50 to 180 range. -/
theorem calculateHeartRate_bounds (buffer : List ℚ) (v : ℚ) :
    50 ≤ (calculateHeartRate buffer v).2 ∧ (calculateHeartRate buffer v).2 ≤ 180 := by
  unfold calculateHeartRate
  dsimp only
  omega

/-- Fold invariant: a BPM in the output stream is either from the initial
accumulator or is the clamped output of one step. -/
theorem hr_foldl_mem (samples : List ℚ) :
    ∀ (buf : List ℚ) (out : List ℕ) (bpm : ℕ),
      bpm ∈ (samples.foldl hrStepFold (buf, out)).2 →
        bpm ∈ out ∨ (50 ≤ bpm ∧ bpm ≤ 180) := by
  induction samples with
  | nil => intro buf out bpm h; exact Or.inl h
  | cons v rest ih =>
    intro buf out bpm h
    rw [List.foldl_cons] at h
    rcases ih _ _ _ h with hmem | hb
    · rcases List.mem_append.mp hmem with h1 | h2
      · exact Or.inl h1
      · have hv : bpm = (calculateHeartRate buf v).2 := List.mem_singleton.mp h2
        exact Or.inr (hv ▸ calculateHeartRate_bounds buf v)
    · exact Or.inr hb

/-- C3: each estimator step appends the sample, evicts the oldest entry when
the history exceeds 50 samples, counts samples strictly above the 1.5 mV
threshold and returns the clamp of six times that count into the 50 to 180
range; consequently every estimate emitted over any input sequence lies
within that range. -/
theorem heartRate_step_and_bounds :
    (∀ (buffer : List ℚ) (v : ℚ),
      calculateHeartRate buffer v =
        ((if 50 < (buffer ++ [v]).length then (buffer ++ [v]).tail else buffer ++ [v]),
          min (max (((if 50 < (buffer ++ [v]).length then (buffer ++ [v]).tail
                      else buffer ++ [v]).filter (fun x => (3 / 2 : ℚ) < x)).length * 6)
            50) 180)) ∧
    (∀ (samples : List ℚ) (bpm : ℕ), bpm ∈ hrEstimates samples →
        50 ≤ bpm ∧ bpm ≤ 180) := by
  constructor
  · intro buffer v
    rfl
  · intro samples bpm h
    rcases hr_foldl_mem samples [] [] bpm h with h0 | hb
    · cases h0
    · exact hb

/-- Witness for C3: feeding the single sample 2 mV emits the estimate 50
(one peak, so `max (1 * 6) 50 = 50`), which lies in the range. -/
theorem heartRate_step_and_bounds_witness :
    (50 ∈ hrEstimates [2]) ∧ 50 ≤ 50 ∧ 50 ≤ 180 := by
  have hmem : (50 : ℕ) ∈ hrEstimates [2] := by
    have hval : hrEstimates [2] = [50] := by
      unfold hrEstimates hrStepFold calculateHeartRate
      norm_num
    rw [hval]
    exact List.mem_singleton.mpr rfl
  exact ⟨hmem, heartRate_step_and_bounds.2 [2] 50 hmem⟩

/-- The status derivation rule, by cases on the heart rate. -/
theorem sessionStatusOf_cases (hr : ℤ) :
    (sessionStatusOf hr = SessionStatus.elevated ↔ 85 < hr) ∧
    (sessionStatusOf hr = SessionStatus.low ↔ hr < 65) ∧
    (sessionStatusOf hr = SessionStatus.normal ↔ 65 ≤ hr ∧ hr ≤ 85) := by
  unfold sessionStatusOf
  split_ifs with h1 h2 <;> refine ⟨?_, ?_, ?_⟩ <;> simp <;> omega

/-- C4: every session produced by stopping has status elevated iff its
average heart rate exceeds 85, low iff it is below 65, and normal otherwise;
in particular heart rates 65 and 85 both map to normal. -/
theorem session_status_iff (hrs : List ℕ) (ecgs : List ℚ) (d : ℕ)
    (s : SessionRecord) (h : saveSessionCore hrs ecgs d = some s) :
    ((s.status = SessionStatus.elevated ↔ 85 < s.heartRate) ∧
     (s.status = SessionStatus.low ↔ s.heartRate < 65) ∧
     (s.status = SessionStatus.normal ↔ 65 ≤ s.heartRate ∧ s.heartRate ≤ 85)) ∧
    (sessionStatusOf 65 = SessionStatus.normal ∧
     sessionStatusOf 85 = SessionStatus.normal) := by
  refine ⟨?_, by decide, by decide⟩
  have hs : s.status = sessionStatusOf s.heartRate := by
    unfold saveSessionCore at h
    split at h
    · exact absurd h (by simp)
    · obtain rfl : _ = s := Option.some.inj h
      rfl
  rw [hs]
  exact sessionStatusOf_cases s.heartRate

/-- Witness for C4: the one-sample session with heart rate 90 is elevated. -/
theorem session_status_iff_witness :
    ((SessionStatus.elevated = SessionStatus.elevated ↔ (85 : ℤ) < 90) ∧
     (SessionStatus.elevated = SessionStatus.low ↔ (90 : ℤ) < 65) ∧
     (SessionStatus.elevated = SessionStatus.normal ↔ (65 : ℤ) ≤ 90 ∧ (90 : ℤ) ≤ 85)) ∧
    (sessionStatusOf 65 = SessionStatus.normal ∧
     sessionStatusOf 85 = SessionStatus.normal) :=
  session_status_iff [90] [1] 5
    { heartRate := 90, avgECG := 1, minECG := 1, maxECG := 1,
      status := SessionStatus.elevated, durationSeconds := 5, duration := "5s",
      ecgData := [1] }
    (by
      norm_num [saveSessionCore, jsRound, round2, listMin, listMax,
        sessionStatusOf, formatDuration]
      rfl)

/-- Rounding an integer-valued rational is the identity. -/
theorem jsRound_natCast (n : ℕ) : jsRound (n : ℚ) = n := by
  unfold jsRound
  rw [Int.floor_eq_iff]
  constructor <;> push_cast <;> linarith

/-- C5 counterexample: stopping after the single sample 1.234 mV produces a
session with minimum and maximum ECG equal to 1.234 but average ECG 1.23
(the average is rounded to 2 decimals), so the three are not all equal to
the sample. -/
theorem single_sample_avg_rounded_counterexample :
    saveSessionCore (hrEstimates [617 / 500]) [617 / 500] 1 =
      some { heartRate := 50, avgECG := 123 / 100, minECG := 617 / 500,
             maxECG := 617 / 500, status := SessionStatus.low,
             durationSeconds := 1, duration := "1s", ecgData := [617 / 500] } ∧
    (123 / 100 : ℚ) ≠ 617 / 500 := by
  constructor
  · norm_num [saveSessionCore, hrEstimates, hrStepFold, calculateHeartRate,
      jsRound, round2, listMin, listMax, sessionStatusOf, formatDuration]
    rfl
  · norm_num

/-- C5 (amended): stopping a session after exactly one sample returns a
session whose minimum and maximum ECG equal the mV value of the sample,
whose average ECG equals the sample rounded to 2 decimal places (hence equal
to the sample exactly when it has at most 2 decimals), and whose average
heart rate equals the estimator output for that single sample. -/
theorem saveSession_single_sample (v : ℚ) (d : ℕ) :
    saveSessionCore (hrEstimates [v]) [v] d =
      some { heartRate := (hrSingle v : ℤ), avgECG := round2 v, minECG := v,
             maxECG := v, status := sessionStatusOf (hrSingle v),
             durationSeconds := d, duration := formatDuration d,
             ecgData := [v] } := by
  have h1 : hrEstimates [v] = [hrSingle v] := rfl
  rw [h1]
  unfold saveSessionCore
  rw [if_neg (by simp)]
  simp only [List.sum_cons, List.sum_nil, List.length_cons, List.length_nil,
    listMin, listMax, List.foldl_nil, add_zero]
  norm_num [jsRound_natCast]

/-- C6 counterexample: from a reachable `ERROR` state (a connect attempt
whose permission request was denied), a *new connect call* — not a
disconnect — moves the machine out of `ERROR`: with permissions granted and
the radio on it proceeds to `CONNECTED`. -/
theorem error_state_connect_escape :
    errorBTState.currentStatus = ConnectionStatus.ERROR ∧
      (connectToECGDevice happyBTEnv errorBTState).2.currentStatus =
        ConnectionStatus.CONNECTED := by
  decide

/-- C6 (amended): from the `ERROR` state, a disconnect transitions to
`DISCONNECTED`; but `ERROR` is not latched: a new connect call also leaves
`ERROR` (with permissions granted and the radio powered on it enters
`SCANNING` and can reach `CONNECTED`), so the disconnect is not the only
exit. -/
theorem error_state_exits (s : BTState)
    (h : s.currentStatus = ConnectionStatus.ERROR) :
    (disconnectFromECGDevice s).currentStatus = ConnectionStatus.DISCONNECTED ∧
      (connectToECGDevice happyBTEnv errorBTState).2.currentStatus =
        ConnectionStatus.CONNECTED := by
  exact ⟨rfl, by decide⟩

/-- Witness for C6 (amended) at the concrete reachable error state. -/
theorem error_state_exits_witness :
    (disconnectFromECGDevice errorBTState).currentStatus =
        ConnectionStatus.DISCONNECTED ∧
      (connectToECGDevice happyBTEnv errorBTState).2.currentStatus =
        ConnectionStatus.CONNECTED :=
  error_state_exits errorBTState (by decide)

/-- C7: calling connect while a peripheral is already held and the state is
`CONNECTED` returns `true`, starts no device scan, and leaves the held
peripheral handle and the `CONNECTED` state unchanged. -/
theorem connect_when_connected_noop (env : BTEnv) (s : BTState) (d : Peripheral)
    (hdev : s.connectedDevice = some d)
    (hst : s.currentStatus = ConnectionStatus.CONNECTED)
    (hble : env.bleAvailable = true) :
    (connectToECGDevice env s).1 = true ∧
      (connectToECGDevice env s).2.connectedDevice = some d ∧
      (connectToECGDevice env s).2.currentStatus = ConnectionStatus.CONNECTED ∧
      (connectToECGDevice env s).2.scanCalls = s.scanCalls := by
  unfold connectToECGDevice
  rw [hble]
  simp [hdev]

/-- Witness for C7 at a concrete connected state. -/
theorem connect_when_connected_noop_witness :
    (connectToECGDevice happyBTEnv connectedBTState).1 = true ∧
      (connectToECGDevice happyBTEnv connectedBTState).2.connectedDevice =
        some { id := "aa:bb", name := "ESP32_ECG" } ∧
      (connectToECGDevice happyBTEnv connectedBTState).2.currentStatus =
        ConnectionStatus.CONNECTED ∧
      (connectToECGDevice happyBTEnv connectedBTState).2.scanCalls =
        connectedBTState.scanCalls :=
  connect_when_connected_noop happyBTEnv connectedBTState
    { id := "aa:bb", name := "ESP32_ECG" } rfl rfl rfl

/-- C8: the disconnect operation is idempotent and total: from any state it
ends in `DISCONNECTED` with the scan timer, the subscription (notification
or poll wrapper), and the peripheral handle all released, and running it
twice gives the same state as running it once. -/
theorem disconnect_idempotent (s : BTState) :
    (disconnectFromECGDevice s).currentStatus = ConnectionStatus.DISCONNECTED ∧
      (disconnectFromECGDevice s).subscription = false ∧
      (disconnectFromECGDevice s).scanTimeout = false ∧
      (disconnectFromECGDevice s).connectedDevice = none ∧
      disconnectFromECGDevice (disconnectFromECGDevice s) =
        disconnectFromECGDevice s := by
  exact ⟨rfl, rfl, rfl, rfl, rfl⟩

/-- C9: every generated sample decomposes as the rounding of the sum of the
deterministic component of the running index and the injected noise term,
and with the noise source fixed (two streams agreeing on the generated index
range — in particular seeded alike or disabled), two runs of the batch
generator over the same index range produce identical sequences. -/
theorem generator_deterministic_components :
    (∀ (pi : ℚ) (sine : ℚ → ℚ) (rnd : ℕ → ℚ) (point : ℕ),
      generateRealisticECGValue pi sine rnd point =
        round3 (deterministicComponent pi sine point + noiseTerm rnd point)) ∧
    (∀ (pi : ℚ) (sine : ℚ → ℚ) (rnd rnd' : ℕ → ℚ) (count : ℕ),
      (∀ i, i < count → rnd i = rnd' i) →
        generateECGBatch pi sine rnd count = generateECGBatch pi sine rnd' count) := by
  have hdec : ∀ (pi : ℚ) (sine : ℚ → ℚ) (rnd : ℕ → ℚ) (point : ℕ),
      generateRealisticECGValue pi sine rnd point =
        round3 (deterministicComponent pi sine point + noiseTerm rnd point) := by
    intro pi sine rnd point
    unfold generateRealisticECGValue deterministicComponent
    exact congrArg round3 (by ring)
  refine ⟨hdec, ?_⟩
  intro pi sine rnd rnd' count hagree
  unfold generateECGBatch
  apply List.map_congr_left
  intro i hi
  rw [hdec, hdec]
  have hnoise : noiseTerm rnd i = noiseTerm rnd' i := by
    unfold noiseTerm
    rw [hagree i (List.mem_range.mp hi)]
  rw [hnoise]

/-- Witness for C9 with the noise source disabled over indices 0 to 99. -/
theorem generator_deterministic_components_witness :
    generateECGBatch 0 (fun _ => 0) (fun _ => 0) 100 =
      generateECGBatch 0 (fun _ => 0) (fun _ => 0) 100 :=
  generator_deterministic_components.2 0 (fun _ => 0) (fun _ => 0) (fun _ => 0)
    100 (fun _ _ => rfl)

/-- C10: on the empty session list both the CSV and the JSON export return
failure (`success = false`) with no data field and the error message
`No sessions to export`; on any non-empty list both produce a document
(`success = true` and a data field present). -/
theorem export_empty_fails :
    (∀ today, exportToCSV today [] =
      { success := false, data := none, fileName := none,
        error := some ("No sessions to export") }) ∧
    (∀ exportDate today stats, exportToJSON exportDate today [] stats =
      { success := false, data := none, fileName := none,
        error := some ("No sessions to export") }) ∧
    (∀ today sessions, sessions ≠ [] →
      (exportToCSV today sessions).success = true ∧
        (exportToCSV today sessions).data.isSome = true) ∧
    (∀ exportDate today sessions stats, sessions ≠ [] →
      (exportToJSON exportDate today sessions stats).success = true ∧
        (exportToJSON exportDate today sessions stats).data.isSome = true) := by
  refine ⟨fun today => rfl, fun exportDate today stats => rfl, ?_, ?_⟩
  · intro today sessions hne
    unfold exportToCSV
    rw [if_neg (by simpa using hne)]
    exact ⟨rfl, rfl⟩
  · intro exportDate today sessions stats hne
    unfold exportToJSON
    rw [if_neg (by simpa using hne)]
    exact ⟨rfl, rfl⟩

/-- Witness for C10: a concrete one-session list yields a CSV document, and
the empty list yields the error result. -/
theorem export_empty_fails_witness :
    (exportToCSV ("2026-10-11") [] =
      { success := false, data := none, fileName := none,
        error := some ("No sessions to export") }) ∧
    ((exportToCSV ("2026-10-11") [witnessSession]).success = true ∧
      (exportToCSV ("2026-10-11") [witnessSession]).data.isSome = true) := by
  refine ⟨export_empty_fails.1 ("2026-10-11"), ?_⟩
  exact export_empty_fails.2.2.1 ("2026-10-11") [witnessSession] (by decide)
